import Mathlib

/-!
# Verification of the session/token authority of `go-modules-v3`

Shallow embedding of `utils/token.go` (package `utils`): the JWT codec
(`tokenClient.GenerateToken` / `tokenClient.ValidateToken`), the
Redis-backed session store (`RedisTokenManager.StoreToken` /
`RedisTokenManager.ValidateToken` / `RevokeToken`), the pair flow
(`GenerateTokenPair`, `StoreRefreshTokenInRedis`, `ValidateRefreshToken`,
`RevokeRefreshTokenFromRedis`, `RevokeAllTokens`).

Modelling conventions:
* Time is an explicit `Int` of Unix seconds; every Go `time.Now()` inside
  one operation is modelled as the single `now` argument of that operation.
* JWT credential strings are modelled symbolically: a well-formed string is
  its parsed structure (header algorithm, payload object, signature), and a
  string that does not parse is `TokenStr.garbage`.  The HMAC is ideal
  (Dolev–Yao): a signature value records the algorithm and key that
  produced it and the exact signed content, and verification succeeds
  exactly when these match the presented token and the configured secret.
  The honest signer serialises a claims map deterministically
  (`encoding/json` sorts map keys), so structural equality of well-formed
  tokens coincides with byte equality of the strings the system produces.
* The JWT payload is the JSON object, an association list in the (sorted)
  key order `encoding/json` emits for the Go claims maps.
* `github.com/golang-jwt/jwt/v5` `Parse` pipeline, in the library's order:
  malformed check, key lookup via this repo's keyfunc (which rejects any
  non-HMAC signing method), signature verification, then claims validation
  (`exp`; the tokens of this system never carry `nbf`).  In v5 the
  signature is verified *before* the expiry check.
* The Redis client is modelled as an association list of key/entry pairs,
  an entry holding the stored string and its absolute expiry (`Set` with
  expiration 0 stores without TTL); the store is available except where a
  claim is explicitly about a failing `Del`, which takes a failure
  oracle.  The global manager is assumed initialised (the `nil` guards of
  the package are not the subject of any claim).
-/

namespace GoModules

/-- JWT signing algorithms registered with `golang-jwt/jwt/v5` that this
model distinguishes.  `none_` is the `"none"` algorithm. -/
inductive Alg
  | HS256
  | HS384
  | HS512
  | RS256
  | ES256
  | none_
  deriving DecidableEq, Repr

/-- Whether the signing method behind an `alg` header is
`*jwt.SigningMethodHMAC` (the type the keyfunc in `token.go` accepts). -/
def Alg.isHMAC : Alg → Bool
  | .HS256 => true
  | .HS384 => true
  | .HS512 => true
  | _ => false

/-- JSON values appearing in the claim payloads this system handles. -/
inductive JSONVal
  | jstr (s : String)
  | jnum (n : Int)
  | jbool (b : Bool)
  deriving DecidableEq, Repr

/-- A JWT payload: the JSON claims object, as the association list of its
serialised key order. -/
abbrev Payload := List (String × JSONVal)

/-- Claim lookup, `claims["key"]` on `jwt.MapClaims`. -/
def lookupClaim (p : Payload) (k : String) : Option JSONVal :=
  (p.find? (fun kv => kv.1 == k)).map (·.2)

/-- An (ideal) HMAC signature value: it records the method and key used to
compute it and the exact signed content (the header's `alg` and the
payload, i.e. the two signed segments of the compact serialisation). -/
structure Sig where
  alg : Alg
  key : String
  headerAlg : Alg
  payload : Payload
  deriving DecidableEq, Repr

/-- A well-formed (parseable) JWT string: header algorithm, payload and
signature segment. -/
structure JWT where
  alg : Alg
  payload : Payload
  sig : Sig
  deriving DecidableEq, Repr

/-- A presented credential string: either a well-formed JWT or bytes that
do not parse as one. -/
inductive TokenStr
  | jwt (t : JWT)
  | garbage (s : String)
  deriving DecidableEq, Repr

/-- The signature an honest HS256 signer with `secret` puts on a token
with header `HS256` and the given payload (`token.SignedString`). -/
def hs256Sig (secret : String) (p : Payload) : Sig :=
  ⟨Alg.HS256, secret, Alg.HS256, p⟩

/-- `jwt.NewWithClaims(jwt.SigningMethodHS256, claims).SignedString(secret)`. -/
def signHS256 (secret : String) (p : Payload) : TokenStr :=
  .jwt ⟨Alg.HS256, p, hs256Sig secret p⟩

/-- Errors of the `jwt.Parse` pipeline as configured by this repository's
keyfunc. -/
inductive ParseErr
  /-- the string does not parse as a JWT -/
  | malformed
  /-- keyfunc error `"unexpected signing method: %v"` -/
  | unexpectedSigningMethod (alg : Alg)
  /-- `ErrTokenSignatureInvalid` -/
  | signatureInvalid
  /-- `ErrTokenExpired` -/
  | tokenExpired
  /-- other claims-validation failure (e.g. `exp` of a non-numeric type) -/
  | invalidClaims
  deriving DecidableEq, Repr

/-- `exp` validation of `jwt/v5` `MapClaims`: absent `exp` is accepted
(not required by default); a numeric `exp` passes only while `now` is
strictly before it (the validator's `cmp.Before(exp)` with zero leeway:
it succeeds only if now < exp, so the whole second `now = exp` already
fails with `ErrTokenExpired`); a non-numeric `exp` is an invalid claim. -/
def checkExp (p : Payload) (now : Int) : Except ParseErr Unit :=
  match lookupClaim p "exp" with
  | none => Except.ok ()
  | some (JSONVal.jnum e) =>
      if now ≥ e then Except.error ParseErr.tokenExpired else Except.ok ()
  | some _ => Except.error ParseErr.invalidClaims

/-- `jwt.Parse(tokenString, keyfunc)` with the keyfunc of `token.go`
(lines 78–83 and 190–195): rejects non-HMAC methods, returns the secret,
then the library verifies the signature and validates the claims. -/
def jwtParse (secret : String) (now : Int) (ts : TokenStr) : Except ParseErr JWT :=
  match ts with
  | TokenStr.garbage _ => Except.error ParseErr.malformed
  | TokenStr.jwt t =>
      if ¬ t.alg.isHMAC then
        Except.error (ParseErr.unexpectedSigningMethod t.alg)
      else if t.sig ≠ ⟨t.alg, secret, t.alg, t.payload⟩ then
        Except.error ParseErr.signatureInvalid
      else
        match checkExp t.payload now with
        | Except.error e => Except.error e
        | Except.ok () => Except.ok t

/-- `TokenClaims` (token.go lines 13–16). -/
structure TokenClaims where
  UserID : String
  Username : String
  deriving DecidableEq, Repr

/-- Errors of `tokenClient.ValidateToken` / `RedisTokenManager.parseJWTToken`. -/
inductive ParseJWTErr
  /-- an error returned by `jwt.Parse` -/
  | parse (e : ParseErr)
  /-- `"invalid user_id in token claims"` -/
  | invalidUserID
  /-- `"invalid username in token claims"` -/
  | invalidUsername
  deriving DecidableEq, Repr

/-- The claim-extraction step shared by `tokenClient.ValidateToken`
(lines 89–106) and `RedisTokenManager.parseJWTToken` (lines 201–218):
`user_id` and `username` must be string-valued.  (The final
`"invalid token"` branch is unreachable: a successful `jwt.Parse` always
yields `MapClaims` with `token.Valid` set.) -/
def extractClaims (t : JWT) : Except ParseJWTErr TokenClaims :=
  match lookupClaim t.payload "user_id" with
  | some (JSONVal.jstr uid) =>
      match lookupClaim t.payload "username" with
      | some (JSONVal.jstr un) => Except.ok ⟨uid, un⟩
      | _ => Except.error ParseJWTErr.invalidUsername
  | _ => Except.error ParseJWTErr.invalidUserID

/-- `GenerateTokenReq` (token.go lines 28–31). -/
structure GenerateTokenReq where
  UserID : String
  Username : String
  deriving DecidableEq, Repr

/-- `GenerateTokenResp` (token.go lines 33–36). -/
structure GenerateTokenResp where
  Token : TokenStr
  ExpToken : Int
  deriving DecidableEq, Repr

/-- The claims map built by `tokenClient.GenerateToken` (token.go lines
57–62): `{user_id, username, exp = now + expiryHours·3600, iat = now}`, in
`encoding/json`'s sorted key order. -/
def genPayload (req : GenerateTokenReq) (expiryHours : Nat) (now : Int) :
    Payload :=
  [("exp", JSONVal.jnum (now + 3600 * (expiryHours : Int))),
   ("iat", JSONVal.jnum now),
   ("user_id", JSONVal.jstr req.UserID),
   ("username", JSONVal.jstr req.Username)]

namespace tokenClient

/-- `tokenClient.GenerateToken` (token.go lines 53–74): builds the claims
map above and signs it HS256 with the secret. -/
def GenerateToken (secret : String) (expiryHours : Nat) (req : GenerateTokenReq)
    (now : Int) : GenerateTokenResp :=
  ⟨signHS256 secret (genPayload req expiryHours now),
   now + 3600 * (expiryHours : Int)⟩

/-- `tokenClient.ValidateToken` (token.go lines 77–107): `jwt.Parse` with
the HMAC-only keyfunc, then extraction of the `user_id`/`username` claims. -/
def ValidateToken (secret : String) (now : Int) (ts : TokenStr) :
    Except ParseJWTErr TokenClaims :=
  match jwtParse secret now ts with
  | Except.error e => Except.error (ParseJWTErr.parse e)
  | Except.ok t => extractClaims t

end tokenClient

/-! ## The Redis store model -/

/-- A stored Redis value: the token string and its absolute expiry time
(`none` when `Set` was called with expiration `0`, i.e. no TTL). -/
structure Entry where
  value : TokenStr
  expiresAt : Option Int
  deriving DecidableEq, Repr

/-- The Redis keyspace: an association list from keys to entries. -/
abbrev RedisStore := List (String × Entry)

/-- `redisClient.Set(ctx, key, v, ttl)` at time `now`, with `ttl` in
seconds (a `time.Duration` of whole seconds; `0` means no expiry):
unconditionally overwrites any existing entry for `key`. -/
def redisSet (st : RedisStore) (now : Int) (key : String) (v : TokenStr)
    (ttl : Nat) : RedisStore :=
  (key, ⟨v, if ttl = 0 then none else some (now + (ttl : Int))⟩) ::
    st.filter (fun kv => kv.1 != key)

/-- `redisClient.Get(ctx, key).Result()` at time `now`: `none` models the
`redis.Nil` outcome — the key is absent, or its entry has expired (Redis
deletes a key once `now` reaches its expiry). -/
def redisGet (st : RedisStore) (now : Int) (key : String) : Option TokenStr :=
  match st.find? (fun kv => kv.1 == key) with
  | none => none
  | some (_, e) =>
      match e.expiresAt with
      | none => some e.value
      | some exp => if now < exp then some e.value else none

/-- `redisClient.Del(ctx, key)`: removes the entry if present; idempotent. -/
def redisDel (st : RedisStore) (key : String) : RedisStore :=
  st.filter (fun kv => kv.1 != key)

/-! ## RedisTokenManager -/

/-- Errors of the Redis-backed validation paths
(`RedisTokenManager.ValidateToken` and `ValidateRefreshToken`). -/
inductive RedisValidateErr
  /-- `"invalid JWT token: %w"` wrapping a `parseJWTToken` error -/
  | invalidJWT (e : ParseJWTErr)
  /-- `redis.Nil`: `"token not found in Redis - user may have logged out"`
  (resp. `"refresh token not found - user may have logged out"`) -/
  | tokenNotFound
  /-- `"Redis error: %w"` (store failure; the store model is available) -/
  | redisError
  /-- `"token mismatch - invalid session"` (resp.
  `"refresh token mismatch - invalid session"`) -/
  | tokenMismatch
  deriving DecidableEq, Repr

namespace RedisTokenManager

/-- `RedisTokenManager.parseJWTToken` (token.go lines 189–219): textually
the same pipeline as `tokenClient.ValidateToken`. -/
def parseJWTToken (secret : String) (now : Int) (ts : TokenStr) :
    Except ParseJWTErr TokenClaims :=
  match jwtParse secret now ts with
  | Except.error e => Except.error (ParseJWTErr.parse e)
  | Except.ok t => extractClaims t

/-- `RedisTokenManager.StoreToken` (token.go lines 150–154): stores the
string under `"token:" + userID` with TTL `expiryHours` hours. -/
def StoreToken (expiryHours : Nat) (st : RedisStore) (now : Int)
    (userID : String) (token : TokenStr) : RedisStore :=
  redisSet st now ("token:" ++ userID) token (3600 * expiryHours)

/-- `RedisTokenManager.ValidateToken` (token.go lines 157–180): parse the
JWT, look up `"token:" + claims.UserID`, fail if absent or different from
the presented string, return the claims otherwise. -/
def ValidateToken (secret : String) (st : RedisStore) (now : Int)
    (ts : TokenStr) : Except RedisValidateErr TokenClaims :=
  match parseJWTToken secret now ts with
  | Except.error e => Except.error (RedisValidateErr.invalidJWT e)
  | Except.ok claims =>
      match redisGet st now ("token:" ++ claims.UserID) with
      | none => Except.error RedisValidateErr.tokenNotFound
      | some stored =>
          if stored ≠ ts then Except.error RedisValidateErr.tokenMismatch
          else Except.ok claims

/-- `RedisTokenManager.RevokeToken` (token.go lines 183–186). -/
def RevokeToken (st : RedisStore) (userID : String) : RedisStore :=
  redisDel st ("token:" ++ userID)

end RedisTokenManager

/-! ## The token-pair flow (package-level functions over the global
manager, assumed initialised) -/

/-- `TokenPairResp` (token.go lines 38–42). -/
structure TokenPairResp where
  AccessToken : TokenStr
  RefreshToken : TokenStr
  ExpiresIn : Int
  deriving DecidableEq, Repr

/-- The claims map of the access token minted by `GenerateTokenPair`,
in `encoding/json`'s sorted key order. -/
def accessPayload (req : GenerateTokenReq) (now : Int) : Payload :=
  [("exp", JSONVal.jnum (now + 900)),
   ("iat", JSONVal.jnum now),
   ("type", JSONVal.jstr "access"),
   ("user_id", JSONVal.jstr req.UserID),
   ("username", JSONVal.jstr req.Username)]

/-- The claims map of the refresh token minted by `GenerateTokenPair`. -/
def refreshPayload (req : GenerateTokenReq) (now : Int) : Payload :=
  [("exp", JSONVal.jnum (now + 604800)),
   ("iat", JSONVal.jnum now),
   ("type", JSONVal.jstr "refresh"),
   ("user_id", JSONVal.jstr req.UserID),
   ("username", JSONVal.jstr req.Username)]

/-- `GenerateTokenPair` (token.go lines 254–296): mints an access token
expiring in 15 minutes and a refresh token expiring in 7 days, both HS256
under the manager's secret, and reports `ExpiresIn = 900`.  It performs no
store writes. -/
def GenerateTokenPair (secret : String) (req : GenerateTokenReq) (now : Int) :
    TokenPairResp :=
  ⟨signHS256 secret (accessPayload req now),
   signHS256 secret (refreshPayload req now),
   900⟩

/-- `StoreTokenInRedis` (token.go lines 238–243), delegating to
`RedisTokenManager.StoreToken`. -/
def StoreTokenInRedis (expiryHours : Nat) (st : RedisStore) (now : Int)
    (userID : String) (token : TokenStr) : RedisStore :=
  RedisTokenManager.StoreToken expiryHours st now userID token

/-- `StoreRefreshTokenInRedis` (token.go lines 299–306): stores the string
under `"refresh_token:" + userID` with TTL 7 days (604800 s). -/
def StoreRefreshTokenInRedis (st : RedisStore) (now : Int) (userID : String)
    (token : TokenStr) : RedisStore :=
  redisSet st now ("refresh_token:" ++ userID) token 604800

/-- `ValidateRefreshToken` (token.go lines 309–336): like
`RedisTokenManager.ValidateToken` but against `"refresh_token:" + userID`. -/
def ValidateRefreshToken (secret : String) (st : RedisStore) (now : Int)
    (ts : TokenStr) : Except RedisValidateErr TokenClaims :=
  match RedisTokenManager.parseJWTToken secret now ts with
  | Except.error e => Except.error (RedisValidateErr.invalidJWT e)
  | Except.ok claims =>
      match redisGet st now ("refresh_token:" ++ claims.UserID) with
      | none => Except.error RedisValidateErr.tokenNotFound
      | some stored =>
          if stored ≠ ts then Except.error RedisValidateErr.tokenMismatch
          else Except.ok claims

/-- `RevokeRefreshTokenFromRedis` (token.go lines 339–345). -/
def RevokeRefreshTokenFromRedis (st : RedisStore) (userID : String) :
    RedisStore :=
  redisDel st ("refresh_token:" ++ userID)

/-- A store-infrastructure failure (`StoreUnavailable`). -/
inductive StoreErr
  | storeUnavailable
  deriving DecidableEq, Repr

/-- A failure oracle for `Del` calls: which keys the Redis client fails to
delete (connection error). -/
def DelFailure := String → Bool

/-- `RevokeAllTokens` (token.go lines 348–353) with an explicit `Del`
failure oracle: deletes `"token:" + userID`, returning that error
immediately if the `Del` fails, then deletes
`"refresh_token:" + userID`.  The result carries the final store, the
error if any, and the list of keys on which a `Del` was attempted, in
order. -/
def RevokeAllTokens (fails : DelFailure) (st : RedisStore) (userID : String) :
    RedisStore × Option StoreErr × List String :=
  let accessKey := "token:" ++ userID
  let refreshKey := "refresh_token:" ++ userID
  if fails accessKey then (st, some StoreErr.storeUnavailable, [accessKey])
  else
    let st1 := redisDel st accessKey
    if fails refreshKey then
      (st1, some StoreErr.storeUnavailable, [accessKey, refreshKey])
    else (redisDel st1 refreshKey, none, [accessKey, refreshKey])

/-- The always-available `Del` oracle. -/
def noDelFailure : DelFailure := fun _ => false

/-! ## Modelled orchestrators (spec §4.3; not under `src/`) -/

/-- Modelled from the spec: the `issuePair` orchestration of the
SessionAuthority ("mints an access credential … and a refresh credential
via TokenCodec, then calls `put` for both kinds"; spec §4.3).  The handler
composing `GenerateTokenPair` with `StoreTokenInRedis` and
`StoreRefreshTokenInRedis` is not under `src/`; its three constituents are
the repository's functions above. -/
def IssuePair (secret : String) (expiryHours : Nat) (st : RedisStore)
    (now : Int) (req : GenerateTokenReq) : TokenPairResp × RedisStore :=
  let pair := GenerateTokenPair secret req now
  let st1 := StoreTokenInRedis expiryHours st now req.UserID pair.AccessToken
  let st2 := StoreRefreshTokenInRedis st1 now req.UserID pair.RefreshToken
  (pair, st2)

/-- Modelled from the spec: the `refresh` orchestration of the
SessionAuthority ("equivalent to `validate(refresh, …)` followed by
`issuePair`"; spec §4.3).  The handler composing `ValidateRefreshToken`
with `IssuePair` is not under `src/`. -/
def Refresh (secret : String) (expiryHours : Nat) (st : RedisStore)
    (now : Int) (ts : TokenStr) :
    Except RedisValidateErr (TokenPairResp × RedisStore) :=
  match ValidateRefreshToken secret st now ts with
  | Except.error e => Except.error e
  | Except.ok claims =>
      Except.ok (IssuePair secret expiryHours st now ⟨claims.UserID, claims.Username⟩)

/-! ## Helper lemmas -/

theorem key_token_ne_refresh (u : String) :
    ("token:" ++ u) ≠ ("refresh_token:" ++ u) := by
  intro h
  have hl := congrArg String.length h
  rw [String.length_append, String.length_append] at hl
  have h6 : ("token:" : String).length = 6 := rfl
  have h14 : ("refresh_token:" : String).length = 14 := rfl
  rw [h6, h14] at hl
  omega

theorem find?_filter_self (l : RedisStore) (k : String) :
    (l.filter (fun kv => kv.1 != k)).find? (fun kv => kv.1 == k) = none := by
  induction l with
  | nil => rfl
  | cons a l ih =>
      rw [List.filter_cons]
      by_cases ha : a.1 = k
      · rw [if_neg (by simp [ha])]
        exact ih
      · rw [if_pos (by simp [bne_iff_ne, ha]),
          List.find?_cons_of_neg _ (by simp [ha]), ih]

theorem find?_filter_ne (l : RedisStore) {k k' : String} (h : k' ≠ k) :
    (l.filter (fun kv => kv.1 != k)).find? (fun kv => kv.1 == k') =
      l.find? (fun kv => kv.1 == k') := by
  induction l with
  | nil => rfl
  | cons a l ih =>
      rw [List.filter_cons]
      by_cases ha : a.1 = k
      · rw [if_neg (by simp [bne_iff_ne, ha]), ih,
          List.find?_cons_of_neg _ (by simp [ha]; exact fun hh => h hh.symm)]
      · by_cases ha' : a.1 = k'
        · rw [if_pos (by simp [bne_iff_ne, ha]),
            List.find?_cons_of_pos _ (by simp [ha']),
            List.find?_cons_of_pos _ (by simp [ha'])]
        · rw [if_pos (by simp [bne_iff_ne, ha]),
            List.find?_cons_of_neg _ (by simp [ha']),
            List.find?_cons_of_neg _ (by simp [ha']), ih]

theorem redisGet_set_self (st : RedisStore) (now now' : Int) (k : String)
    (v : TokenStr) (ttl : Nat) :
    redisGet (redisSet st now k v ttl) now' k =
      if ttl = 0 then some v
      else if now' < now + (ttl : Int) then some v else none := by
  unfold redisGet redisSet
  rw [List.find?_cons_of_pos _ (by simp)]
  by_cases h0 : ttl = 0
  · simp [h0]
  · rw [if_neg h0]
    by_cases hn : now' < now + (ttl : Int)
    · simp [h0, hn]
    · simp [h0, hn]

theorem redisGet_set_ne (st : RedisStore) (now now' : Int) (k k' : String)
    (v : TokenStr) (ttl : Nat) (h : k' ≠ k) :
    redisGet (redisSet st now k v ttl) now' k' = redisGet st now' k' := by
  unfold redisGet redisSet
  rw [List.find?_cons_of_neg _ (by simp; exact fun hh => h hh.symm),
    find?_filter_ne _ h]

theorem redisGet_del_self (st : RedisStore) (now : Int) (k : String) :
    redisGet (redisDel st k) now k = none := by
  unfold redisGet redisDel
  rw [find?_filter_self]

theorem redisGet_del_ne (st : RedisStore) (now : Int) (k k' : String)
    (h : k' ≠ k) :
    redisGet (redisDel st k) now k' = redisGet st now k' := by
  unfold redisGet redisDel
  rw [find?_filter_ne _ h]

theorem jwtParse_signed (secret : String) (now : Int) (p : Payload)
    (hexp : checkExp p now = Except.ok ()) :
    jwtParse secret now (signHS256 secret p) =
      Except.ok ⟨Alg.HS256, p, hs256Sig secret p⟩ := by
  simp [jwtParse, signHS256, hs256Sig, Alg.isHMAC, hexp]

theorem jwtParse_ok_dest {secret : String} {now : Int} {ts : TokenStr}
    {t : JWT} (h : jwtParse secret now ts = Except.ok t) :
    ts = TokenStr.jwt t ∧ t.alg.isHMAC = true ∧
      t.sig = ⟨t.alg, secret, t.alg, t.payload⟩ ∧
      checkExp t.payload now = Except.ok () := by
  cases ts with
  | garbage s => simp [jwtParse] at h
  | jwt t' =>
      by_cases h1 : t'.alg.isHMAC = true
      · by_cases h2 : t'.sig = ⟨t'.alg, secret, t'.alg, t'.payload⟩
        · cases hx : checkExp t'.payload now with
          | error e => simp [jwtParse, h1, h2, hx] at h
          | ok u =>
              cases u
              simp [jwtParse, h1, h2, hx] at h
              subst h
              exact ⟨rfl, h1, h2, hx⟩
        · simp [jwtParse, h1, h2] at h
      · simp [jwtParse, h1] at h

theorem checkExp_accessPayload (req : GenerateTokenReq) (t now : Int) :
    checkExp (accessPayload req t) now =
      if now ≥ t + 900 then Except.error ParseErr.tokenExpired
      else Except.ok () := rfl

theorem checkExp_refreshPayload (req : GenerateTokenReq) (t now : Int) :
    checkExp (refreshPayload req t) now =
      if now ≥ t + 604800 then Except.error ParseErr.tokenExpired
      else Except.ok () := rfl

theorem extract_accessPayload (a : Alg) (s : Sig) (req : GenerateTokenReq)
    (t : Int) :
    extractClaims ⟨a, accessPayload req t, s⟩ =
      Except.ok ⟨req.UserID, req.Username⟩ := rfl

theorem extract_refreshPayload (a : Alg) (s : Sig) (req : GenerateTokenReq)
    (t : Int) :
    extractClaims ⟨a, refreshPayload req t, s⟩ =
      Except.ok ⟨req.UserID, req.Username⟩ := rfl

theorem checkExp_genPayload (req : GenerateTokenReq) (hours : Nat)
    (t now : Int) :
    checkExp (genPayload req hours t) now =
      if now ≥ t + 3600 * (hours : Int) then Except.error ParseErr.tokenExpired
      else Except.ok () := rfl

theorem extract_genPayload (a : Alg) (s : Sig) (req : GenerateTokenReq)
    (hours : Nat) (t : Int) :
    extractClaims ⟨a, genPayload req hours t, s⟩ =
      Except.ok ⟨req.UserID, req.Username⟩ := rfl

theorem accessToken_ne {s : String} {req : GenerateTokenReq} {t1 t2 : Int}
    (h : t1 ≠ t2) :
    signHS256 s (accessPayload req t1) ≠ signHS256 s (accessPayload req t2) := by
  intro he
  have hp : accessPayload req t1 = accessPayload req t2 :=
    congrArg (fun ts => match ts with
      | TokenStr.jwt t => t.payload
      | TokenStr.garbage _ => []) he
  have hexp : some (JSONVal.jnum (t1 + 900)) = some (JSONVal.jnum (t2 + 900)) :=
    congrArg (fun p => lookupClaim p "exp") hp
  simp only [Option.some.injEq, JSONVal.jnum.injEq] at hexp
  omega

theorem refreshToken_ne {s : String} {req : GenerateTokenReq} {t1 t2 : Int}
    (h : t1 ≠ t2) :
    signHS256 s (refreshPayload req t1) ≠ signHS256 s (refreshPayload req t2) := by
  intro he
  have hp : refreshPayload req t1 = refreshPayload req t2 :=
    congrArg (fun ts => match ts with
      | TokenStr.jwt t => t.payload
      | TokenStr.garbage _ => []) he
  have hexp : some (JSONVal.jnum (t1 + 604800)) =
      some (JSONVal.jnum (t2 + 604800)) :=
    congrArg (fun p => lookupClaim p "exp") hp
  simp only [Option.some.injEq, JSONVal.jnum.injEq] at hexp
  omega

theorem parseJWT_signed_access (secret : String) (req : GenerateTokenReq)
    (t1 now : Int) (h : now < t1 + 900) :
    RedisTokenManager.parseJWTToken secret now
        (signHS256 secret (accessPayload req t1)) =
      Except.ok ⟨req.UserID, req.Username⟩ := by
  unfold RedisTokenManager.parseJWTToken
  rw [jwtParse_signed secret now _
    (by rw [checkExp_accessPayload]; exact if_neg (by omega))]
  exact extract_accessPayload _ _ _ _

theorem parseJWT_signed_refresh (secret : String) (req : GenerateTokenReq)
    (t1 now : Int) (h : now < t1 + 604800) :
    RedisTokenManager.parseJWTToken secret now
        (signHS256 secret (refreshPayload req t1)) =
      Except.ok ⟨req.UserID, req.Username⟩ := by
  unfold RedisTokenManager.parseJWTToken
  rw [jwtParse_signed secret now _
    (by rw [checkExp_refreshPayload]; exact if_neg (by omega))]
  exact extract_refreshPayload _ _ _ _

theorem issuePair_store (secret : String) (hours : Nat) (st : RedisStore)
    (now : Int) (req : GenerateTokenReq) :
    (IssuePair secret hours st now req).2 =
      redisSet
        (redisSet st now ("token:" ++ req.UserID)
          (signHS256 secret (accessPayload req now)) (3600 * hours))
        now ("refresh_token:" ++ req.UserID)
        (signHS256 secret (refreshPayload req now)) 604800 := rfl

theorem issue_get_access (secret : String) (hours : Nat) (st : RedisStore)
    (now t' : Int) (req : GenerateTokenReq) (hh : hours ≠ 0)
    (ht : t' < now + 3600 * (hours : Int)) :
    redisGet (IssuePair secret hours st now req).2 t' ("token:" ++ req.UserID) =
      some (signHS256 secret (accessPayload req now)) := by
  rw [issuePair_store,
    redisGet_set_ne _ _ _ _ _ _ _ (key_token_ne_refresh req.UserID),
    redisGet_set_self]
  rw [if_neg (by omega), if_pos (by push_cast; omega)]

theorem issue_get_refresh (secret : String) (hours : Nat) (st : RedisStore)
    (now t' : Int) (req : GenerateTokenReq) (ht : t' < now + 604800) :
    redisGet (IssuePair secret hours st now req).2 t'
        ("refresh_token:" ++ req.UserID) =
      some (signHS256 secret (refreshPayload req now)) := by
  rw [issuePair_store, redisGet_set_self]
  rw [if_neg (by omega), if_pos (by push_cast; omega)]

theorem validate_access_after_issue (secret : String) (hours : Nat)
    (st : RedisStore) (req : GenerateTokenReq) (t1 t2 t3 : Int)
    (hh : hours ≠ 0) (hexp : t3 < t1 + 900)
    (hstore : t3 < t2 + 3600 * (hours : Int)) :
    RedisTokenManager.ValidateToken secret (IssuePair secret hours st t2 req).2
        t3 (signHS256 secret (accessPayload req t1)) =
      if t1 = t2 then Except.ok ⟨req.UserID, req.Username⟩
      else Except.error RedisValidateErr.tokenMismatch := by
  unfold RedisTokenManager.ValidateToken
  rw [parseJWT_signed_access secret req t1 t3 hexp]
  dsimp only
  rw [issue_get_access secret hours st t2 t3 req hh hstore]
  dsimp only
  by_cases he : t1 = t2
  · subst he
    simp
  · rw [if_neg he, if_pos (Ne.symm (accessToken_ne he))]

theorem validate_refresh_after_issue (secret : String) (hours : Nat)
    (st : RedisStore) (req : GenerateTokenReq) (t1 t2 t3 : Int)
    (hexp : t3 < t1 + 604800) (hstore : t3 < t2 + 604800) :
    ValidateRefreshToken secret (IssuePair secret hours st t2 req).2 t3
        (signHS256 secret (refreshPayload req t1)) =
      if t1 = t2 then Except.ok ⟨req.UserID, req.Username⟩
      else Except.error RedisValidateErr.tokenMismatch := by
  unfold ValidateRefreshToken
  rw [parseJWT_signed_refresh secret req t1 t3 hexp]
  dsimp only
  rw [issue_get_refresh secret hours st t2 t3 req hstore]
  dsimp only
  by_cases he : t1 = t2
  · subst he
    simp
  · rw [if_neg he, if_pos (Ne.symm (refreshToken_ne he))]

theorem parseJWT_ok_dest {secret : String} {now : Int} {ts : TokenStr}
    {c : TokenClaims}
    (h : RedisTokenManager.parseJWTToken secret now ts = Except.ok c) :
    ∃ t : JWT, jwtParse secret now ts = Except.ok t ∧
      extractClaims t = Except.ok c := by
  unfold RedisTokenManager.parseJWTToken at h
  cases hp : jwtParse secret now ts with
  | error e => rw [hp] at h; cases h
  | ok t => rw [hp] at h; exact ⟨t, rfl, h⟩

theorem validate_ok_dest {secret : String} {st : RedisStore} {now : Int}
    {ts : TokenStr} {c : TokenClaims}
    (h : RedisTokenManager.ValidateToken secret st now ts = Except.ok c) :
    ∃ t : JWT, ts = TokenStr.jwt t ∧ t.alg.isHMAC = true ∧
      t.sig = ⟨t.alg, secret, t.alg, t.payload⟩ ∧
      checkExp t.payload now = Except.ok () ∧
      extractClaims t = Except.ok c ∧
      redisGet st now ("token:" ++ c.UserID) = some ts := by
  unfold RedisTokenManager.ValidateToken at h
  cases hp : RedisTokenManager.parseJWTToken secret now ts with
  | error e => rw [hp] at h; cases h
  | ok c' =>
      rw [hp] at h
      dsimp only at h
      cases hg : redisGet st now ("token:" ++ c'.UserID) with
      | none => rw [hg] at h; cases h
      | some stored =>
          rw [hg] at h
          dsimp only at h
          by_cases hs : stored = ts
          · rw [if_neg (by simp [hs])] at h
            have hc : c' = c := by injection h
            subst hc
            obtain ⟨t, hjp, hex⟩ := parseJWT_ok_dest hp
            obtain ⟨hts, h1, h2, h3⟩ := jwtParse_ok_dest hjp
            exact ⟨t, hts, h1, h2, h3, hex, by rw [hg, hs]⟩
          · rw [if_pos hs] at h
            cases h

theorem validate_ok_unique {secret : String} {st : RedisStore} {now : Int}
    {ts1 ts2 : TokenStr} {c1 c2 : TokenClaims}
    (h1 : RedisTokenManager.ValidateToken secret st now ts1 = Except.ok c1)
    (h2 : RedisTokenManager.ValidateToken secret st now ts2 = Except.ok c2)
    (hu : c1.UserID = c2.UserID) : ts1 = ts2 := by
  obtain ⟨t1', -, -, -, -, -, hg1⟩ := validate_ok_dest h1
  obtain ⟨t2', -, -, -, -, -, hg2⟩ := validate_ok_dest h2
  rw [hu] at hg1
  rw [hg1] at hg2
  injection hg2

theorem validate_refresh_ok_dest {secret : String} {st : RedisStore}
    {now : Int} {ts : TokenStr} {c : TokenClaims}
    (h : ValidateRefreshToken secret st now ts = Except.ok c) :
    redisGet st now ("refresh_token:" ++ c.UserID) = some ts := by
  unfold ValidateRefreshToken at h
  cases hp : RedisTokenManager.parseJWTToken secret now ts with
  | error e => rw [hp] at h; cases h
  | ok c' =>
      rw [hp] at h
      dsimp only at h
      cases hg : redisGet st now ("refresh_token:" ++ c'.UserID) with
      | none => rw [hg] at h; cases h
      | some stored =>
          rw [hg] at h
          dsimp only at h
          by_cases hs : stored = ts
          · rw [if_neg (by simp [hs])] at h
            have hc : c' = c := by injection h
            subst hc
            rw [hg, hs]
          · rw [if_pos hs] at h
            cases h

theorem validate_refresh_ok_unique {secret : String} {st : RedisStore}
    {now : Int} {ts1 ts2 : TokenStr} {c1 c2 : TokenClaims}
    (h1 : ValidateRefreshToken secret st now ts1 = Except.ok c1)
    (h2 : ValidateRefreshToken secret st now ts2 = Except.ok c2)
    (hu : c1.UserID = c2.UserID) : ts1 = ts2 := by
  have hg1 := validate_refresh_ok_dest h1
  have hg2 := validate_refresh_ok_dest h2
  rw [hu] at hg1
  rw [hg1] at hg2
  injection hg2

/-! ## Claim theorems -/

/-- **C1**: `RedisTokenManager.ValidateToken` returns the claims only if
the HMAC signature verifies under the configured secret, the credential is
unexpired, and the presented string is byte-identical to the value stored
under `"token:" + subject`; if no record is stored it fails with the
session-revoked error (`"token not found in Redis"`), and if a record is
stored but differs from the presented string it fails with the
session-mismatch error (`"token mismatch"`). -/
theorem C1_redis_validate_gate (secret : String) (st : RedisStore)
    (now : Int) (ts : TokenStr) :
    (∀ c, RedisTokenManager.ValidateToken secret st now ts = Except.ok c →
      ∃ t : JWT, ts = TokenStr.jwt t ∧ t.alg.isHMAC = true ∧
        t.sig = ⟨t.alg, secret, t.alg, t.payload⟩ ∧
        checkExp t.payload now = Except.ok () ∧
        redisGet st now ("token:" ++ c.UserID) = some ts) ∧
    (∀ c, RedisTokenManager.parseJWTToken secret now ts = Except.ok c →
      redisGet st now ("token:" ++ c.UserID) = none →
      RedisTokenManager.ValidateToken secret st now ts =
        Except.error RedisValidateErr.tokenNotFound) ∧
    (∀ c stored, RedisTokenManager.parseJWTToken secret now ts = Except.ok c →
      redisGet st now ("token:" ++ c.UserID) = some stored → stored ≠ ts →
      RedisTokenManager.ValidateToken secret st now ts =
        Except.error RedisValidateErr.tokenMismatch) := by
  refine ⟨?_, ?_, ?_⟩
  · intro c h
    obtain ⟨t, hts, h1, h2, h3, -, hg⟩ := validate_ok_dest h
    exact ⟨t, hts, h1, h2, h3, hg⟩
  · intro c h hg
    unfold RedisTokenManager.ValidateToken
    rw [h]
    dsimp only
    rw [hg]
  · intro c stored h hg hs
    unfold RedisTokenManager.ValidateToken
    rw [h]
    dsimp only
    rw [hg]
    dsimp only
    rw [if_pos hs]

/-- Witness for C1: a freshly signed, unexpired access token presented
against an empty store fails with the revoked-style error. -/
theorem C1_redis_validate_gate_witness :
    RedisTokenManager.ValidateToken "s" [] 0
        (signHS256 "s" (accessPayload ⟨"u1", "alice"⟩ 0)) =
      Except.error RedisValidateErr.tokenNotFound :=
  (C1_redis_validate_gate "s" [] 0
      (signHS256 "s" (accessPayload ⟨"u1", "alice"⟩ 0))).2.1
    ⟨"u1", "alice"⟩ (by rfl) (by rfl)

/-- **C5**: a credential whose embedded signing-algorithm tag is not in
the HMAC family is always rejected with the unexpected-signing-method
error by `tokenClient.ValidateToken`, `RedisTokenManager.parseJWTToken`
and `RedisTokenManager.ValidateToken`, and claims are never returned,
whatever the payload. -/
theorem C5_algorithm_confusion (secret : String) (now : Int) (t : JWT)
    (h : t.alg.isHMAC = false) :
    tokenClient.ValidateToken secret now (TokenStr.jwt t) =
      Except.error (ParseJWTErr.parse
        (ParseErr.unexpectedSigningMethod t.alg)) ∧
    RedisTokenManager.parseJWTToken secret now (TokenStr.jwt t) =
      Except.error (ParseJWTErr.parse
        (ParseErr.unexpectedSigningMethod t.alg)) ∧
    ∀ st : RedisStore,
      RedisTokenManager.ValidateToken secret st now (TokenStr.jwt t) =
        Except.error (RedisValidateErr.invalidJWT
          (ParseJWTErr.parse (ParseErr.unexpectedSigningMethod t.alg))) := by
  have hp : jwtParse secret now (TokenStr.jwt t) =
      Except.error (ParseErr.unexpectedSigningMethod t.alg) := by
    simp [jwtParse, h]
  have hpp : RedisTokenManager.parseJWTToken secret now (TokenStr.jwt t) =
      Except.error (ParseJWTErr.parse
        (ParseErr.unexpectedSigningMethod t.alg)) := by
    unfold RedisTokenManager.parseJWTToken
    rw [hp]
  refine ⟨?_, hpp, ?_⟩
  · unfold tokenClient.ValidateToken
    rw [hp]
  · intro st
    unfold RedisTokenManager.ValidateToken
    rw [hpp]

/-- Witness for C5: an RS256-tagged token carrying a completely
well-formed access payload is rejected with the unexpected-signing-method
error. -/
theorem C5_algorithm_confusion_witness :
    tokenClient.ValidateToken "s" 0
        (TokenStr.jwt ⟨Alg.RS256, accessPayload ⟨"u1", "alice"⟩ 0,
          hs256Sig "s" (accessPayload ⟨"u1", "alice"⟩ 0)⟩) =
      Except.error (ParseJWTErr.parse
        (ParseErr.unexpectedSigningMethod Alg.RS256)) :=
  (C5_algorithm_confusion "s" 0
      ⟨Alg.RS256, accessPayload ⟨"u1", "alice"⟩ 0,
        hs256Sig "s" (accessPayload ⟨"u1", "alice"⟩ 0)⟩ rfl).1

/-- **C6**: round-trip — validating the token produced by
`tokenClient.GenerateToken` under the same secret, at any time within its
lifetime, succeeds and returns exactly the input claims (the returned
`TokenClaims` carry no issued-at field, which is server-assigned). -/
theorem C6_roundtrip (secret : String) (hours : Nat) (req : GenerateTokenReq)
    (t t' : Int) (h : t' < t + 3600 * (hours : Int)) :
    tokenClient.ValidateToken secret t'
        (tokenClient.GenerateToken secret hours req t).Token =
      Except.ok ⟨req.UserID, req.Username⟩ := by
  unfold tokenClient.ValidateToken tokenClient.GenerateToken
  dsimp only
  rw [jwtParse_signed secret t' _
    (by rw [checkExp_genPayload]; exact if_neg (by omega))]
  exact extract_genPayload _ _ _ _ _

/-- Witness for C6 at a concrete input. -/
theorem C6_roundtrip_witness :
    tokenClient.ValidateToken "s" 5
        (tokenClient.GenerateToken "s" 1 ⟨"u1", "alice"⟩ 0).Token =
      Except.ok ⟨"u1", "alice"⟩ :=
  C6_roundtrip "s" 1 ⟨"u1", "alice"⟩ 0 5 (by norm_num)

/-- **C9**: `RevokeAllTokens` is not atomic — when the `Del` of the access
record `"token:" + userID` fails, the error is returned immediately, the
store is left unchanged (in particular the refresh record
`"refresh_token:" + userID` is untouched), and no `Del` of the refresh key
is ever attempted. -/
theorem C9_revoke_not_atomic (fails : DelFailure) (st : RedisStore)
    (uid : String) (h : fails ("token:" ++ uid) = true) :
    RevokeAllTokens fails st uid =
      (st, some StoreErr.storeUnavailable, ["token:" ++ uid]) ∧
    ("refresh_token:" ++ uid) ∉ ["token:" ++ uid] := by
  constructor
  · simp [RevokeAllTokens, h]
  · simp only [List.mem_singleton]
    exact Ne.symm (key_token_ne_refresh uid)

/-- Witness for C9: a client failing `Del` on exactly the access key. -/
theorem C9_revoke_not_atomic_witness :
    RevokeAllTokens (fun k => k == "token:" ++ "u1") [] "u1" =
      ([], some StoreErr.storeUnavailable, ["token:" ++ "u1"]) :=
  (C9_revoke_not_atomic (fun k => k == "token:" ++ "u1") [] "u1" (by rfl)).1

/-- **C2** counterexample: with `expiryHours = 24`, issuing a pair at time
0 stores the access credential under `"token:u1"` with absolute expiry
86400 s — the per-key TTL is the manager's `expiryHours` hours, not the
900-second access-credential lifetime the claim states. -/
theorem C2_counterexample :
    ((IssuePair "s" 24 [] 0 ⟨"u1", "alice"⟩).2.find?
        (fun kv => kv.1 == "token:u1")).map (fun kv => kv.2.expiresAt) =
      some (some 86400) ∧ (86400 : Int) ≠ 0 + 900 :=
  ⟨rfl, by decide⟩

/-- **C2** (amended): `IssuePair` mints an access credential with
15-minute lifetime (`exp = now + 900`) and a refresh credential with
7-day lifetime (`exp = now + 604800`), reports `ExpiresIn = 900`, and
performs both store writes before returning: the access credential under
`"token:" + principal` with per-key TTL of `expiryHours` hours (the
manager's configured value, NOT the 900-second access lifetime), and the
refresh credential under `"refresh_token:" + principal` with per-key TTL
604800 s. -/
theorem C2_amended (secret : String) (hours : Nat) (st : RedisStore)
    (now : Int) (req : GenerateTokenReq) (hh : hours ≠ 0) :
    (IssuePair secret hours st now req).1.AccessToken =
        signHS256 secret (accessPayload req now) ∧
    (IssuePair secret hours st now req).1.RefreshToken =
        signHS256 secret (refreshPayload req now) ∧
    lookupClaim (accessPayload req now) "exp" =
        some (JSONVal.jnum (now + 900)) ∧
    lookupClaim (refreshPayload req now) "exp" =
        some (JSONVal.jnum (now + 604800)) ∧
    (IssuePair secret hours st now req).1.ExpiresIn = 900 ∧
    (IssuePair secret hours st now req).2.find?
        (fun kv => kv.1 == "token:" ++ req.UserID) =
      some ("token:" ++ req.UserID,
        ⟨signHS256 secret (accessPayload req now),
         some (now + 3600 * (hours : Int))⟩) ∧
    (IssuePair secret hours st now req).2.find?
        (fun kv => kv.1 == "refresh_token:" ++ req.UserID) =
      some ("refresh_token:" ++ req.UserID,
        ⟨signHS256 secret (refreshPayload req now), some (now + 604800)⟩) := by
  refine ⟨rfl, rfl, rfl, rfl, rfl, ?_, ?_⟩
  · rw [issuePair_store]
    unfold redisSet
    rw [List.find?_cons_of_neg _
      (by simp; exact Ne.symm (key_token_ne_refresh req.UserID))]
    rw [List.filter_cons,
      if_pos (by simp [bne_iff_ne]; exact key_token_ne_refresh req.UserID)]
    rw [List.find?_cons_of_pos _ (by simp)]
    rw [if_neg (by omega)]
    push_cast
    ring_nf
  · rw [issuePair_store]
    unfold redisSet
    rw [List.find?_cons_of_pos _ (by simp)]
    rfl

/-- Witness for C2 (amended) at a concrete input. -/
theorem C2_amended_witness :
    (IssuePair "s" 24 [] 0 ⟨"u1", "alice"⟩).2.find?
        (fun kv => kv.1 == "token:" ++ "u1") =
      some ("token:" ++ "u1",
        ⟨signHS256 "s" (accessPayload ⟨"u1", "alice"⟩ 0),
         some (0 + 3600 * (24 : Int))⟩) :=
  (C2_amended "s" 24 [] 0 ⟨"u1", "alice"⟩ (by decide)).2.2.2.2.2.1

/-- **C3** counterexample: two sequential issuances for the same principal
in the same second mint byte-identical credentials (deterministic signing,
identical claims), so validating the first credential after the second was
issued *succeeds* — it does not fail with the mismatch error as the claim
requires of every pair of sequential issuances. -/
theorem C3_counterexample :
    (IssuePair "s" 1 [] 0 ⟨"u1", "alice"⟩).1.AccessToken =
      (IssuePair "s" 1 (IssuePair "s" 1 [] 0 ⟨"u1", "alice"⟩).2 0
        ⟨"u1", "alice"⟩).1.AccessToken ∧
    RedisTokenManager.ValidateToken "s"
        (IssuePair "s" 1 (IssuePair "s" 1 [] 0 ⟨"u1", "alice"⟩).2 0
          ⟨"u1", "alice"⟩).2 0
        (IssuePair "s" 1 [] 0 ⟨"u1", "alice"⟩).1.AccessToken =
      Except.ok ⟨"u1", "alice"⟩ :=
  ⟨rfl, rfl⟩

/-- **C3** (amended): for two sequential issuances at distinct times (so
the minted credentials are distinct strings), validating C1 after C2 was
issued fails with the mismatch error while validating C2 succeeds — for
the access kind and for the refresh kind alike; and, unconditionally, at
most one credential per (principal, kind) can validate successfully
against any one store state, because storing a new credential for the
(principal, kind) slot unconditionally overwrites the old one. -/
theorem C3_amended (secret : String) (hours : Nat) (st : RedisStore)
    (req : GenerateTokenReq) (t1 t2 t3 : Int) (hh : hours ≠ 0)
    (h12 : t1 < t2) (h23 : t2 ≤ t3) (hexp : t3 < t1 + 900)
    (hstore : t3 < t2 + 3600 * (hours : Int)) :
    RedisTokenManager.ValidateToken secret
        (IssuePair secret hours (IssuePair secret hours st t1 req).2 t2 req).2
        t3 (IssuePair secret hours st t1 req).1.AccessToken =
      Except.error RedisValidateErr.tokenMismatch ∧
    RedisTokenManager.ValidateToken secret
        (IssuePair secret hours (IssuePair secret hours st t1 req).2 t2 req).2
        t3 (IssuePair secret hours (IssuePair secret hours st t1 req).2 t2
          req).1.AccessToken =
      Except.ok ⟨req.UserID, req.Username⟩ ∧
    ValidateRefreshToken secret
        (IssuePair secret hours (IssuePair secret hours st t1 req).2 t2 req).2
        t3 (IssuePair secret hours st t1 req).1.RefreshToken =
      Except.error RedisValidateErr.tokenMismatch ∧
    ValidateRefreshToken secret
        (IssuePair secret hours (IssuePair secret hours st t1 req).2 t2 req).2
        t3 (IssuePair secret hours (IssuePair secret hours st t1 req).2 t2
          req).1.RefreshToken =
      Except.ok ⟨req.UserID, req.Username⟩ ∧
    (∀ ts1 ts2 c1 c2,
      RedisTokenManager.ValidateToken secret
          (IssuePair secret hours (IssuePair secret hours st t1 req).2 t2
            req).2 t3 ts1 = Except.ok c1 →
      RedisTokenManager.ValidateToken secret
          (IssuePair secret hours (IssuePair secret hours st t1 req).2 t2
            req).2 t3 ts2 = Except.ok c2 →
      c1.UserID = c2.UserID → ts1 = ts2) ∧
    (∀ ts1 ts2 c1 c2,
      ValidateRefreshToken secret
          (IssuePair secret hours (IssuePair secret hours st t1 req).2 t2
            req).2 t3 ts1 = Except.ok c1 →
      ValidateRefreshToken secret
          (IssuePair secret hours (IssuePair secret hours st t1 req).2 t2
            req).2 t3 ts2 = Except.ok c2 →
      c1.UserID = c2.UserID → ts1 = ts2) := by
  refine ⟨?_, ?_, ?_, ?_, ?_, ?_⟩
  · have h1 := validate_access_after_issue secret hours
      (IssuePair secret hours st t1 req).2 req t1 t2 t3 hh hexp hstore
    rw [if_neg (by omega)] at h1
    exact h1
  · have h2 := validate_access_after_issue secret hours
      (IssuePair secret hours st t1 req).2 req t2 t2 t3 hh (by omega) hstore
    rw [if_pos rfl] at h2
    exact h2
  · have h3 := validate_refresh_after_issue secret hours
      (IssuePair secret hours st t1 req).2 req t1 t2 t3 (by omega) (by omega)
    rw [if_neg (by omega)] at h3
    exact h3
  · have h4 := validate_refresh_after_issue secret hours
      (IssuePair secret hours st t1 req).2 req t2 t2 t3 (by omega) (by omega)
    rw [if_pos rfl] at h4
    exact h4
  · intro ts1 ts2 c1 c2 hv1 hv2 hu
    exact validate_ok_unique hv1 hv2 hu
  · intro ts1 ts2 c1 c2 hv1 hv2 hu
    exact validate_refresh_ok_unique hv1 hv2 hu

/-- Witness for C3 (amended): issuances at times 0 and 1, validation at
time 2, for both credential kinds. -/
theorem C3_amended_witness :
    RedisTokenManager.ValidateToken "s"
        (IssuePair "s" 1 (IssuePair "s" 1 [] 0 ⟨"u1", "alice"⟩).2 1
          ⟨"u1", "alice"⟩).2 2
        (IssuePair "s" 1 [] 0 ⟨"u1", "alice"⟩).1.AccessToken =
      Except.error RedisValidateErr.tokenMismatch ∧
    RedisTokenManager.ValidateToken "s"
        (IssuePair "s" 1 (IssuePair "s" 1 [] 0 ⟨"u1", "alice"⟩).2 1
          ⟨"u1", "alice"⟩).2 2
        (IssuePair "s" 1 (IssuePair "s" 1 [] 0 ⟨"u1", "alice"⟩).2 1
          ⟨"u1", "alice"⟩).1.AccessToken =
      Except.ok ⟨"u1", "alice"⟩ ∧
    ValidateRefreshToken "s"
        (IssuePair "s" 1 (IssuePair "s" 1 [] 0 ⟨"u1", "alice"⟩).2 1
          ⟨"u1", "alice"⟩).2 2
        (IssuePair "s" 1 [] 0 ⟨"u1", "alice"⟩).1.RefreshToken =
      Except.error RedisValidateErr.tokenMismatch ∧
    ValidateRefreshToken "s"
        (IssuePair "s" 1 (IssuePair "s" 1 [] 0 ⟨"u1", "alice"⟩).2 1
          ⟨"u1", "alice"⟩).2 2
        (IssuePair "s" 1 (IssuePair "s" 1 [] 0 ⟨"u1", "alice"⟩).2 1
          ⟨"u1", "alice"⟩).1.RefreshToken =
      Except.ok ⟨"u1", "alice"⟩ := by
  have h := C3_amended "s" 1 [] ⟨"u1", "alice"⟩ 0 1 2 (by decide)
    (by norm_num) (by norm_num) (by norm_num) (by norm_num)
  exact ⟨h.1, h.2.1, h.2.2.1, h.2.2.2.1⟩

/-- **C4** counterexample: after `Refresh(R)` succeeds (at a later second
than the original issuance), validating the previously issued access
credential `A` fails with the mismatch error — it does not "still
succeed" as the claim states, because `issuePair` inside the refresh flow
overwrites the access record too. -/
theorem C4_counterexample :
    (Refresh "s" 1 (IssuePair "s" 1 [] 0 ⟨"u1", "alice"⟩).2 1
        (IssuePair "s" 1 [] 0 ⟨"u1", "alice"⟩).1.RefreshToken).map
      (fun r => RedisTokenManager.ValidateToken "s" r.2 2
        (IssuePair "s" 1 [] 0 ⟨"u1", "alice"⟩).1.AccessToken) =
      Except.ok (Except.error RedisValidateErr.tokenMismatch) := rfl

/-- **C4** (amended): after `Refresh(R)` at a time later than the original
issuance returns the new pair, (a) validating the previously issued access
credential `A` fails with the mismatch error (the refresh flow's
`issuePair` overwrites the access record with the new access credential),
and (b) calling `Refresh(R)` a second time fails with the mismatch error
because `R` was superseded by the new refresh credential. -/
theorem C4_amended (secret : String) (hours : Nat) (st : RedisStore)
    (req : GenerateTokenReq) (t1 t2 t3 : Int) (hh : hours ≠ 0)
    (h12 : t1 < t2) (h23 : t2 ≤ t3) (hexp : t3 < t1 + 900)
    (hstore : t3 < t2 + 3600 * (hours : Int)) :
    Refresh secret hours (IssuePair secret hours st t1 req).2 t2
        (IssuePair secret hours st t1 req).1.RefreshToken =
      Except.ok
        (IssuePair secret hours (IssuePair secret hours st t1 req).2 t2 req) ∧
    RedisTokenManager.ValidateToken secret
        (IssuePair secret hours (IssuePair secret hours st t1 req).2 t2 req).2
        t3 (IssuePair secret hours st t1 req).1.AccessToken =
      Except.error RedisValidateErr.tokenMismatch ∧
    Refresh secret hours
        (IssuePair secret hours (IssuePair secret hours st t1 req).2 t2 req).2
        t3 (IssuePair secret hours st t1 req).1.RefreshToken =
      Except.error RedisValidateErr.tokenMismatch := by
  refine ⟨?_, ?_, ?_⟩
  · have hv := validate_refresh_after_issue secret hours st req t1 t1 t2
      (by omega) (by omega)
    rw [if_pos rfl] at hv
    unfold Refresh
    rw [show (IssuePair secret hours st t1 req).1.RefreshToken =
      signHS256 secret (refreshPayload req t1) from rfl, hv]
  · have h1 := validate_access_after_issue secret hours
      (IssuePair secret hours st t1 req).2 req t1 t2 t3 hh hexp hstore
    rw [if_neg (by omega)] at h1
    exact h1
  · have hv := validate_refresh_after_issue secret hours
      (IssuePair secret hours st t1 req).2 req t1 t2 t3 (by omega) (by omega)
    rw [if_neg (by omega)] at hv
    unfold Refresh
    rw [show (IssuePair secret hours st t1 req).1.RefreshToken =
      signHS256 secret (refreshPayload req t1) from rfl, hv]

/-- Witness for C4 (amended): issuance at time 0, refresh at time 1,
second refresh attempt at time 2. -/
theorem C4_amended_witness :
    Refresh "s" 1
        (IssuePair "s" 1 (IssuePair "s" 1 [] 0 ⟨"u1", "alice"⟩).2 1
          ⟨"u1", "alice"⟩).2 2
        (IssuePair "s" 1 [] 0 ⟨"u1", "alice"⟩).1.RefreshToken =
      Except.error RedisValidateErr.tokenMismatch :=
  (C4_amended "s" 1 [] ⟨"u1", "alice"⟩ 0 1 2 (by decide) (by norm_num)
    (by norm_num) (by norm_num) (by norm_num)).2.2

/-- **C7** counterexample: a credential with `exp` in the past but an
HMAC signature made with the wrong key fails with the signature error, not
the expired error — `jwt/v5` verifies the signature before it validates
the claims, so the claim's "regardless of signature validity" does not
hold for the error kind. -/
theorem C7_counterexample :
    tokenClient.ValidateToken "s" 0
        (TokenStr.jwt ⟨Alg.HS256,
          [("exp", JSONVal.jnum (-1)), ("iat", JSONVal.jnum (-10)),
           ("user_id", JSONVal.jstr "u1"), ("username", JSONVal.jstr "alice")],
          hs256Sig "wrong"
            [("exp", JSONVal.jnum (-1)), ("iat", JSONVal.jnum (-10)),
             ("user_id", JSONVal.jstr "u1"),
             ("username", JSONVal.jstr "alice")]⟩) =
      Except.error (ParseJWTErr.parse ParseErr.signatureInvalid) ∧
    ParseErr.signatureInvalid ≠ ParseErr.tokenExpired :=
  ⟨rfl, by decide⟩

/-- **C7** (amended): a credential carrying a numeric `exp` in the past
never yields claims — validation always fails — and when its algorithm tag
is HMAC and its signature verifies under the secret the failure is the
expired error; an invalid signature is reported as the signature error
first (the signature check precedes the expiry check in `jwt/v5`). -/
theorem C7_amended (secret : String) (now : Int) (t : JWT) (e : Int)
    (hexp : lookupClaim t.payload "exp" = some (JSONVal.jnum e))
    (hpast : e < now) :
    (∀ c, tokenClient.ValidateToken secret now (TokenStr.jwt t) ≠
      Except.ok c) ∧
    (∀ c, RedisTokenManager.parseJWTToken secret now (TokenStr.jwt t) ≠
      Except.ok c) ∧
    (t.alg.isHMAC = true → t.sig = ⟨t.alg, secret, t.alg, t.payload⟩ →
      tokenClient.ValidateToken secret now (TokenStr.jwt t) =
        Except.error (ParseJWTErr.parse ParseErr.tokenExpired) ∧
      RedisTokenManager.parseJWTToken secret now (TokenStr.jwt t) =
        Except.error (ParseJWTErr.parse ParseErr.tokenExpired)) := by
  have hce : checkExp t.payload now = Except.error ParseErr.tokenExpired := by
    unfold checkExp
    rw [hexp]
    exact if_pos (by omega)
  have hnotok : ∀ t' : JWT,
      jwtParse secret now (TokenStr.jwt t) ≠ Except.ok t' := by
    intro t' hjp
    obtain ⟨hts, -, -, hck⟩ := jwtParse_ok_dest hjp
    have ht : t = t' := by injection hts
    subst ht
    rw [hce] at hck
    cases hck
  refine ⟨?_, ?_, ?_⟩
  · intro c h
    unfold tokenClient.ValidateToken at h
    cases hjp : jwtParse secret now (TokenStr.jwt t) with
    | error e' => rw [hjp] at h; cases h
    | ok t' => exact hnotok t' hjp
  · intro c h
    unfold RedisTokenManager.parseJWTToken at h
    cases hjp : jwtParse secret now (TokenStr.jwt t) with
    | error e' => rw [hjp] at h; cases h
    | ok t' => exact hnotok t' hjp
  · intro h1 h2
    have hjp : jwtParse secret now (TokenStr.jwt t) =
        Except.error ParseErr.tokenExpired := by
      simp [jwtParse, h1, h2, hce]
    constructor
    · unfold tokenClient.ValidateToken
      rw [hjp]
    · unfold RedisTokenManager.parseJWTToken
      rw [hjp]

/-- Witness for C7 (amended): an honestly signed token whose `exp` is in
the past fails with the expired error. -/
theorem C7_amended_witness :
    tokenClient.ValidateToken "s" 0
        (TokenStr.jwt ⟨Alg.HS256,
          [("exp", JSONVal.jnum (-1)), ("iat", JSONVal.jnum (-10)),
           ("user_id", JSONVal.jstr "u1"), ("username", JSONVal.jstr "alice")],
          hs256Sig "s"
            [("exp", JSONVal.jnum (-1)), ("iat", JSONVal.jnum (-10)),
             ("user_id", JSONVal.jstr "u1"),
             ("username", JSONVal.jstr "alice")]⟩) =
      Except.error (ParseJWTErr.parse ParseErr.tokenExpired) :=
  ((C7_amended "s" 0
      ⟨Alg.HS256,
        [("exp", JSONVal.jnum (-1)), ("iat", JSONVal.jnum (-10)),
         ("user_id", JSONVal.jstr "u1"), ("username", JSONVal.jstr "alice")],
        hs256Sig "s"
          [("exp", JSONVal.jnum (-1)), ("iat", JSONVal.jnum (-10)),
           ("user_id", JSONVal.jstr "u1"), ("username", JSONVal.jstr "alice")]⟩
      (-1) rfl (by decide)).2.2 rfl rfl).1

/-- **C8**: after a successful `RevokeAllTokens(p)` both the access and
refresh session records of `p` are absent, so validating any credential of
`p` that still parses (access via `RedisTokenManager.ValidateToken`,
refresh via `ValidateRefreshToken`) fails with the record-not-found
(session-revoked) error. -/
theorem C8_revoke (secret : String) (st : RedisStore) (uid : String)
    (t' tq : Int) (ts : TokenStr) (c : TokenClaims)
    (hparse : RedisTokenManager.parseJWTToken secret t' ts = Except.ok c)
    (huid : c.UserID = uid) :
    redisGet (RevokeAllTokens noDelFailure st uid).1 tq
        ("token:" ++ uid) = none ∧
    redisGet (RevokeAllTokens noDelFailure st uid).1 tq
        ("refresh_token:" ++ uid) = none ∧
    (RevokeAllTokens noDelFailure st uid).2.1 = none ∧
    RedisTokenManager.ValidateToken secret
        (RevokeAllTokens noDelFailure st uid).1 t' ts =
      Except.error RedisValidateErr.tokenNotFound ∧
    ValidateRefreshToken secret
        (RevokeAllTokens noDelFailure st uid).1 t' ts =
      Except.error RedisValidateErr.tokenNotFound := by
  have hst : (RevokeAllTokens noDelFailure st uid).1 =
      redisDel (redisDel st ("token:" ++ uid)) ("refresh_token:" ++ uid) := by
    simp [RevokeAllTokens, noDelFailure]
  have hga : ∀ tg : Int, redisGet (RevokeAllTokens noDelFailure st uid).1 tg
      ("token:" ++ uid) = none := by
    intro tg
    rw [hst, redisGet_del_ne _ _ _ _ (key_token_ne_refresh uid),
      redisGet_del_self]
  have hgr : ∀ tg : Int, redisGet (RevokeAllTokens noDelFailure st uid).1 tg
      ("refresh_token:" ++ uid) = none := by
    intro tg
    rw [hst, redisGet_del_self]
  refine ⟨hga tq, hgr tq, by simp [RevokeAllTokens, noDelFailure], ?_, ?_⟩
  · unfold RedisTokenManager.ValidateToken
    rw [hparse]
    dsimp only
    rw [huid, hga t']
  · unfold ValidateRefreshToken
    rw [hparse]
    dsimp only
    rw [huid, hgr t']

/-- Witness for C8: issue a pair, revoke, then validation of the issued
access credential (and its refresh-path validation) fails as revoked. -/
theorem C8_revoke_witness :
    RedisTokenManager.ValidateToken "s"
        (RevokeAllTokens noDelFailure
          (IssuePair "s" 1 [] 0 ⟨"u1", "alice"⟩).2 "u1").1 1
        (IssuePair "s" 1 [] 0 ⟨"u1", "alice"⟩).1.AccessToken =
      Except.error RedisValidateErr.tokenNotFound ∧
    ValidateRefreshToken "s"
        (RevokeAllTokens noDelFailure
          (IssuePair "s" 1 [] 0 ⟨"u1", "alice"⟩).2 "u1").1 1
        (IssuePair "s" 1 [] 0 ⟨"u1", "alice"⟩).1.AccessToken =
      Except.error RedisValidateErr.tokenNotFound := by
  have h := C8_revoke "s" (IssuePair "s" 1 [] 0 ⟨"u1", "alice"⟩).2 "u1" 1 0
    (IssuePair "s" 1 [] 0 ⟨"u1", "alice"⟩).1.AccessToken ⟨"u1", "alice"⟩
    (by rfl) rfl
  exact ⟨h.2.2.2.1, h.2.2.2.2⟩

/-- **C10**: a token whose HMAC signature verifies under the secret and
whose `exp` lies in the future is still rejected — with the
invalid-user_id or invalid-username error, and never with claims — when
its payload lacks a string-valued `user_id` or a string-valued `username`
claim. -/
theorem C10_missing_claims (secret : String) (now : Int) (t : JWT) (e : Int)
    (halg : t.alg.isHMAC = true)
    (hsig : t.sig = ⟨t.alg, secret, t.alg, t.payload⟩)
    (hexp : lookupClaim t.payload "exp" = some (JSONVal.jnum e))
    (hfut : now < e)
    (hbad : (∀ s, lookupClaim t.payload "user_id" ≠
        some (JSONVal.jstr s)) ∨
      (∀ s, lookupClaim t.payload "username" ≠ some (JSONVal.jstr s))) :
    (tokenClient.ValidateToken secret now (TokenStr.jwt t) =
        Except.error ParseJWTErr.invalidUserID ∨
      tokenClient.ValidateToken secret now (TokenStr.jwt t) =
        Except.error ParseJWTErr.invalidUsername) ∧
    (RedisTokenManager.parseJWTToken secret now (TokenStr.jwt t) =
        Except.error ParseJWTErr.invalidUserID ∨
      RedisTokenManager.parseJWTToken secret now (TokenStr.jwt t) =
        Except.error ParseJWTErr.invalidUsername) ∧
    ∀ (st : RedisStore) (c : TokenClaims),
      RedisTokenManager.ValidateToken secret st now (TokenStr.jwt t) ≠
        Except.ok c := by
  have hce : checkExp t.payload now = Except.ok () := by
    unfold checkExp
    rw [hexp]
    exact if_neg (by omega)
  have hjp : jwtParse secret now (TokenStr.jwt t) = Except.ok t := by
    simp [jwtParse, halg, hsig, hce]
  have hex : extractClaims t = Except.error ParseJWTErr.invalidUserID ∨
      extractClaims t = Except.error ParseJWTErr.invalidUsername := by
    unfold extractClaims
    cases hu : lookupClaim t.payload "user_id" with
    | none => exact Or.inl rfl
    | some v =>
        cases v with
        | jstr s0 =>
            cases hbad with
            | inl hb => exact absurd hu (hb s0)
            | inr hb =>
                refine Or.inr ?_
                cases hn : lookupClaim t.payload "username" with
                | none => rfl
                | some w =>
                    cases w with
                    | jstr s1 => exact absurd hn (hb s1)
                    | jnum n => rfl
                    | jbool b => rfl
        | jnum n => exact Or.inl rfl
        | jbool b => exact Or.inl rfl
  have hpp : RedisTokenManager.parseJWTToken secret now (TokenStr.jwt t) =
      extractClaims t := by
    unfold RedisTokenManager.parseJWTToken
    rw [hjp]
  have htc : tokenClient.ValidateToken secret now (TokenStr.jwt t) =
      extractClaims t := by
    unfold tokenClient.ValidateToken
    rw [hjp]
  refine ⟨?_, ?_, ?_⟩
  · rw [htc]; exact hex
  · rw [hpp]; exact hex
  · intro st c h
    unfold RedisTokenManager.ValidateToken at h
    rw [hpp] at h
    cases hex with
    | inl he => rw [he] at h; cases h
    | inr he => rw [he] at h; cases h

/-- Witness for C10: an honestly signed, unexpired token whose payload has
no `user_id` claim at all is rejected. -/
theorem C10_missing_claims_witness :
    tokenClient.ValidateToken "s" 0
        (TokenStr.jwt ⟨Alg.HS256,
          [("exp", JSONVal.jnum 100), ("username", JSONVal.jstr "alice")],
          hs256Sig "s"
            [("exp", JSONVal.jnum 100),
             ("username", JSONVal.jstr "alice")]⟩) =
        Except.error ParseJWTErr.invalidUserID ∨
    tokenClient.ValidateToken "s" 0
        (TokenStr.jwt ⟨Alg.HS256,
          [("exp", JSONVal.jnum 100), ("username", JSONVal.jstr "alice")],
          hs256Sig "s"
            [("exp", JSONVal.jnum 100),
             ("username", JSONVal.jstr "alice")]⟩) =
        Except.error ParseJWTErr.invalidUsername :=
  (C10_missing_claims "s" 0
      ⟨Alg.HS256,
        [("exp", JSONVal.jnum 100), ("username", JSONVal.jstr "alice")],
        hs256Sig "s"
          [("exp", JSONVal.jnum 100), ("username", JSONVal.jstr "alice")]⟩
      100 rfl rfl rfl (by decide)
      (Or.inl (fun s h => Option.noConfusion h))).1

end GoModules
